import Mathlib

/-!
Verification of the EbudhouAI backend core (src/app.py): the telemetry
fallback chain, the diagnosis rule cascade of the /analyze route, and the
interaction of the route with the history database insert.

Numbers carried by telemetry are modelled as rationals; Python exceptions
crossing a function boundary are modelled with `Except`.
-/

namespace Ebudhou

/-- A Python exception value; the code never inspects the exception it
catches, so a single constructor suffices. -/
inductive PyErr where
  | err : PyErr
deriving Repr, DecidableEq

/-- One `connection.query(...)` response: `value` is the measured quantity
(`none` models a `None` value field). -/
structure QueryResp where
  value : Option ℚ
deriving Repr, DecidableEq

/-- The state of an `obd.OBD()` connection attempt: the connectedness flag
and the predetermined outcome of each of the three queries issued by
`get_real_obd_data` (each query call may raise). -/
structure BridgeConn where
  is_connected : Bool
  rpmQ : Except PyErr QueryResp
  voltageQ : Except PyErr QueryResp
  tempQ : Except PyErr QueryResp
deriving Repr

/-- The external world consulted by the telemetry selector: whether the
`obd` library imported (`OBD_LIB_AVAILABLE`, src/app.py lines 54-58), the
outcome of the `obd.OBD()` connection attempt, and the outcome of the
`socket.create_connection` network probe. -/
structure ObdEnv where
  OBD_LIB_AVAILABLE : Bool
  connAttempt : Except PyErr BridgeConn
  probe : Except PyErr Unit
deriving Repr

/-- The telemetry snapshot dict built by the selector (`source` plus three
optional readings; a missing dict key and a `None` value are both `none`). -/
structure ObdData where
  source : String
  rpm : Option ℚ := none
  voltage : Option ℚ := none
  temperature : Option ℚ := none
deriving Repr, DecidableEq

/-- Python truthiness of an optional number: `None` and `0` are falsy. -/
def truthy (x : Option ℚ) : Bool :=
  match x with
  | none => false
  | some v => decide (v ≠ 0)

/-- From src/app.py lines 64-69, `wifi_available`: `true` when
`socket.create_connection(("8.8.8.8", 53), timeout=2)` succeeds, `false`
when it raises `OSError`. -/
def wifi_available (probe : Except PyErr Unit) : Bool :=
  match probe with
  | .ok _ => true
  | .error _ => false

/-- From src/app.py lines 75-95, `get_real_obd_data`: attempt the bluetooth OBD
bridge. Returns `none` when the library is absent, the connection attempt
raises, the device is not connected, or any query raises (the whole body is
under `try/except Exception: return None`). Each reading is kept only when
its query value is truthy (`rpm.value.magnitude if rpm.value else None`). -/
def get_real_obd_data (env : ObdEnv) : Option ObdData :=
  if !env.OBD_LIB_AVAILABLE then none
  else
    match env.connAttempt with
    | .error _ => none
    | .ok conn =>
      if !conn.is_connected then none
      else
        match conn.rpmQ, conn.voltageQ, conn.tempQ with
        | .ok r, .ok v, .ok t =>
          some { source := "BLUETOOTH"
               , rpm := if truthy r.value then r.value else none
               , voltage := if truthy v.value then v.value else none
               , temperature := if truthy t.value then t.value else none }
        | _, _, _ => none

/-- From src/app.py lines 101-119, `get_obd_data`: the three-tier selector. The
bridge result dict is truthy whenever present, so `if real: return real`
is a match on the option. -/
def get_obd_data (env : ObdEnv) : ObdData :=
  match get_real_obd_data env with
  | some real => real
  | none =>
    if wifi_available env.probe then
      { source := "WIFI", rpm := some 800, voltage := some (mkRat 136 10)
      , temperature := some 92 }
    else
      { source := "SIMULATED", rpm := some 780, voltage := some (mkRat 121 10)
      , temperature := some 94 }

/-- The network check with the Python exception flow explicit: the
try/except OSError of src/app.py lines 64-69 as a `tryCatch`. -/
def wifi_availableE (probe : Except PyErr Unit) : Except PyErr Bool :=
  tryCatch (do let _ ← probe; pure true) (fun _ => pure false)

/-- The bridge tier with the Python exception flow explicit: the
try/except Exception of src/app.py lines 79-95 as a `tryCatch`; an
uncaught exception would surface as `Except.error`. -/
def get_real_obd_dataE (env : ObdEnv) : Except PyErr (Option ObdData) :=
  if !env.OBD_LIB_AVAILABLE then pure none
  else
    tryCatch
      (do
        let conn ← env.connAttempt
        if !conn.is_connected then pure none
        else do
          let r ← conn.rpmQ
          let v ← conn.voltageQ
          let t ← conn.tempQ
          pure (some { source := "BLUETOOTH"
                     , rpm := if truthy r.value then r.value else none
                     , voltage := if truthy v.value then v.value else none
                     , temperature := if truthy t.value then t.value else none }))
      (fun _ => pure none)

/-- The selector in the exception monad, composed from the
exception-explicit tiers. -/
def get_obd_dataE (env : ObdEnv) : Except PyErr ObdData := do
  let real ← get_real_obd_dataE env
  match real with
  | some r => pure r
  | none => do
    let wifi ← wifi_availableE env.probe
    if wifi then
      pure { source := "WIFI", rpm := some 800, voltage := some (mkRat 136 10)
           , temperature := some 92 }
    else
      pure { source := "SIMULATED", rpm := some 780, voltage := some (mkRat 121 10)
           , temperature := some 94 }

theorem wifi_availableE_eq (probe : Except PyErr Unit) :
    wifi_availableE probe = Except.ok (wifi_available probe) := by
  cases probe <;> rfl

theorem get_real_obd_dataE_eq (env : ObdEnv) :
    get_real_obd_dataE env = Except.ok (get_real_obd_data env) := by
  obtain ⟨lib, conn, probe⟩ := env
  cases lib
  · rfl
  · cases conn with
    | error e => rfl
    | ok c =>
      obtain ⟨ic, rq, vq, tq⟩ := c
      cases ic
      · rfl
      · cases rq <;> cases vq <;> cases tq <;> rfl

theorem get_obd_dataE_eq (env : ObdEnv) :
    get_obd_dataE env = Except.ok (get_obd_data env) := by
  unfold get_obd_dataE get_obd_data
  rw [get_real_obd_dataE_eq]
  cases hb : get_real_obd_data env with
  | some r => rfl
  | none =>
    show (do
      let wifi ← wifi_availableE env.probe
      if wifi then _ else _ : Except PyErr ObdData) = _
    rw [wifi_availableE_eq]
    cases hw : wifi_available env.probe <;> rfl

/-- Python substring membership `pat in s` for strings. -/
def containsSub (pat s : String) : Bool := decide (pat.data <:+: s.data)

/-- Python `str.lower()` applied character-wise (`Char.toLower` handles the
basic latin range, which covers every rule keyword). -/
def lowerStr (s : String) : String := ⟨s.data.map Char.toLower⟩

/-- The four response fields set by one branch of the cascade. -/
structure DiagnosisResult where
  diagnosis : String
  confidence : String
  reason : String
  next_action : String
deriving Repr, DecidableEq

/-- From src/app.py lines 142-145: the defaults standing when no rule matches. -/
def normalResult : DiagnosisResult :=
  { diagnosis := "System Normal", confidence := "80%"
  , reason := "No abnormal data detected", next_action := "No action required" }

/-- From src/app.py lines 152-155. -/
def weakBatteryResult : DiagnosisResult :=
  { diagnosis := "Weak or Failing Battery", confidence := "92%"
  , reason := "Low voltage detected or battery-related symptoms"
  , next_action := "Check battery terminals or replace battery" }

/-- From src/app.py lines 165-168. -/
def starterResult : DiagnosisResult :=
  { diagnosis := "Starter Motor or Ignition Issue", confidence := "88%"
  , reason := "No-start or starter-related symptoms detected"
  , next_action := "Inspect starter motor, ignition switch, and wiring" }

/-- From src/app.py lines 175-178. -/
def overheatingResult : DiagnosisResult :=
  { diagnosis := "Engine Overheating", confidence := "90%"
  , reason := "High engine temperature detected"
  , next_action := "Stop engine immediately and check coolant system" }

/-- From src/app.py lines 185-188. -/
def stallingResult : DiagnosisResult :=
  { diagnosis := "Engine Stalling Issue", confidence := "85%"
  , reason := "Low RPM or stalling symptoms detected"
  , next_action := "Check fuel system and idle control" }

/-- The Python guard `d.get(k) and d[k] < b`: the field must be present and
truthy (nonzero) before the comparison runs. -/
def guardLt (x : Option ℚ) (b : ℚ) : Bool :=
  match x with
  | some v => truthy (some v) && decide (v < b)
  | none => false

/-- The Python guard `d.get(k) and d[k] > b`. -/
def guardGt (x : Option ℚ) (b : ℚ) : Bool :=
  match x with
  | some v => truthy (some v) && decide (b < v)
  | none => false

/-- From src/app.py lines 147-151: the condition of the first rule. -/
def condBattery (symptoms : String) (obd : ObdData) : Bool :=
  containsSub "battery" symptoms || containsSub "low voltage" symptoms ||
    guardLt obd.voltage (mkRat 115 10)

/-- From src/app.py lines 157-164: the condition of the second rule. -/
def condStarter (symptoms : String) : Bool :=
  containsSub "not starting" symptoms || containsSub "starter" symptoms ||
    containsSub "not working" symptoms || containsSub "engine not" symptoms ||
    containsSub "click" symptoms || containsSub "crank" symptoms

/-- From src/app.py lines 170-174: the condition of the third rule. -/
def condOverheating (symptoms : String) (obd : ObdData) : Bool :=
  containsSub "overheat" symptoms || containsSub "too hot" symptoms ||
    guardGt obd.temperature (105 : ℚ)

/-- From src/app.py lines 180-184: the condition of the fourth rule. -/
def condStalling (symptoms : String) (obd : ObdData) : Bool :=
  containsSub "stall" symptoms || containsSub "shut off" symptoms ||
    guardLt obd.rpm (500 : ℚ)

/-- From src/app.py lines 142-188: the if/elif cascade, applied to the already
lower-cased symptom string. First matching rule wins. -/
def diagnoseLowered (symptoms : String) (obd : ObdData) : DiagnosisResult :=
  if condBattery symptoms obd then weakBatteryResult
  else if condStarter symptoms then starterResult
  else if condOverheating symptoms obd then overheatingResult
  else if condStalling symptoms obd then stallingResult
  else normalResult

/-- The diagnosis engine contract: lower-casing (src/app.py line 138)
followed by the cascade. -/
def diagnose (symptomText : String) (obd : ObdData) : DiagnosisResult :=
  diagnoseLowered (lowerStr symptomText) obd

/-- An incoming /analyze JSON body. The client may send telemetry keys
alongside `symptoms`; `analyze` reads only `symptoms` (line 138). -/
structure AnalyzeRequest where
  symptoms : Option String := none
  rpm : Option ℚ := none
  voltage : Option ℚ := none
  temperature : Option ℚ := none
deriving Repr

/-- The JSON object returned by /analyze (src/app.py lines 212-218). -/
structure AnalyzeResponse where
  diagnosis : String
  confidence : String
  reason : String
  next_action : String
  obd : ObdData
deriving Repr, DecidableEq

/-- Environment of the /analyze route: the externals of the telemetry selector
and the outcome of the database insert/commit block. -/
structure AnalyzeEnv where
  obdEnv : ObdEnv
  dbOutcome : Except PyErr Unit
deriving Repr

/-- From src/app.py lines 135-218, the /analyze route: read `symptoms` (default
empty) and lower-case it, acquire telemetry from the selector, run the
cascade, then execute the database insert block (lines 193-210, which is
not wrapped in any try/except, so a raise there propagates), and finally
build the JSON response. -/
def analyze (req : AnalyzeRequest) (env : AnalyzeEnv) :
    Except PyErr AnalyzeResponse := do
  let symptoms := lowerStr (req.symptoms.getD "")
  let obd ← get_obd_dataE env.obdEnv
  let result := diagnoseLowered symptoms obd
  let _ ← env.dbOutcome
  pure { diagnosis := result.diagnosis, confidence := result.confidence
       , reason := result.reason, next_action := result.next_action
       , obd := obd }

theorem Char_toLower_toLower (c : Char) : c.toLower.toLower = c.toLower := by
  unfold Char.toLower
  by_cases h : c.toNat ≥ 65 ∧ c.toNat ≤ 90
  · rw [if_pos h]
    have hv : (Char.ofNat (c.toNat + 32)).toNat = c.toNat + 32 := by
      have hvalid : (c.toNat + 32).isValidChar := Or.inl (by omega)
      rw [Char.ofNat, dif_pos hvalid]
      rfl
    rw [hv, if_neg (by omega)]
  · rw [if_neg h, if_neg h]

theorem lowerStr_idem (s : String) : lowerStr (lowerStr s) = lowerStr s := by
  show String.mk ((s.data.map Char.toLower).map Char.toLower) = String.mk (s.data.map Char.toLower)
  rw [List.map_map]
  exact congrArg String.mk (List.map_congr_left fun c _ => Char_toLower_toLower c)

/-- When the condition of the first rule fails, no later branch of the cascade can
produce the battery diagnosis. -/
theorem diagnoseLowered_ne_weakBattery (symptoms : String) (obd : ObdData)
    (h : condBattery symptoms obd = false) :
    (diagnoseLowered symptoms obd).diagnosis ≠ "Weak or Failing Battery" := by
  unfold diagnoseLowered
  rw [h]
  simp only [Bool.false_eq_true, if_false]
  split
  · decide
  · split
    · decide
    · split <;> decide

/-- C3: a symptom text containing both "battery" and "overheat" is diagnosed
as the battery category for any telemetry: rule 1 is tested before rule 3
and the first matching rule wins. -/
theorem battery_rule_precedes_overheat_rule (s : String) (t : ObdData)
    (hb : containsSub "battery" (lowerStr s) = true)
    (_ho : containsSub "overheat" (lowerStr s) = true) :
    diagnose s t = weakBatteryResult := by
  have : condBattery (lowerStr s) t = true := by simp [condBattery, hb]
  simp [diagnose, diagnoseLowered, this]

theorem battery_rule_precedes_overheat_rule_witness :
    containsSub "battery" (lowerStr "battery overheat") = true ∧
    containsSub "overheat" (lowerStr "battery overheat") = true ∧
    diagnose "battery overheat" ⟨"SIMULATED", some 780, some (mkRat 121 10), some 94⟩ =
      weakBatteryResult :=
  ⟨by decide, by decide,
    battery_rule_precedes_overheat_rule "battery overheat" _ (by decide) (by decide)⟩

/-- C4: with no battery keyword in the text, a present voltage of exactly
11.5 does not produce the battery diagnosis (the sensor test is strict),
while a present voltage of 11.49 does. -/
theorem voltage_threshold_strict (s : String) (t : ObdData)
    (h1 : containsSub "battery" (lowerStr s) = false)
    (h2 : containsSub "low voltage" (lowerStr s) = false) :
    (t.voltage = some (mkRat 115 10) →
      (diagnose s t).diagnosis ≠ "Weak or Failing Battery") ∧
    (t.voltage = some (mkRat 1149 100) → diagnose s t = weakBatteryResult) := by
  constructor
  · intro hv
    have hc : condBattery (lowerStr s) t = false := by
      simp [condBattery, h1, h2, hv, guardLt, truthy]
    exact diagnoseLowered_ne_weakBattery _ _ hc
  · intro hv
    have hc : condBattery (lowerStr s) t = true := by
      simp [condBattery, hv, guardLt, truthy]
      exact Or.inr (by decide)
    simp [diagnose, diagnoseLowered, hc]

theorem voltage_threshold_strict_witness :
    (diagnose "engine fine" ⟨"BLUETOOTH", none, some (mkRat 115 10), none⟩).diagnosis ≠
      "Weak or Failing Battery" ∧
    diagnose "engine fine" ⟨"BLUETOOTH", none, some (mkRat 1149 100), none⟩ =
      weakBatteryResult :=
  ⟨(voltage_threshold_strict "engine fine" _ (by decide) (by decide)).1 rfl,
   (voltage_threshold_strict "engine fine" _ (by decide) (by decide)).2 rfl⟩

/-- C5: a symptom text free of every rule keyword, together with a telemetry
snapshot whose three numeric fields are all absent, falls through every rule
to the Normal default; no absent field triggers a sensor test and no error
arises (the function is total). -/
theorem all_absent_yields_normal (s src : String)
    (h1 : containsSub "battery" (lowerStr s) = false)
    (h2 : containsSub "low voltage" (lowerStr s) = false)
    (h3 : containsSub "not starting" (lowerStr s) = false)
    (h4 : containsSub "starter" (lowerStr s) = false)
    (h5 : containsSub "not working" (lowerStr s) = false)
    (h6 : containsSub "engine not" (lowerStr s) = false)
    (h7 : containsSub "click" (lowerStr s) = false)
    (h8 : containsSub "crank" (lowerStr s) = false)
    (h9 : containsSub "overheat" (lowerStr s) = false)
    (h10 : containsSub "too hot" (lowerStr s) = false)
    (h11 : containsSub "stall" (lowerStr s) = false)
    (h12 : containsSub "shut off" (lowerStr s) = false) :
    diagnose s { source := src, rpm := none, voltage := none, temperature := none } =
      normalResult := by
  simp [diagnose, diagnoseLowered, condBattery, condStarter, condOverheating,
    condStalling, guardLt, guardGt, h1, h2, h3, h4, h5, h6, h7, h8, h9, h10,
    h11, h12]

theorem all_absent_yields_normal_witness :
    diagnose "" { source := "SIMULATED", rpm := none, voltage := none, temperature := none } =
      normalResult ∧ normalResult.confidence = "80%" :=
  ⟨all_absent_yields_normal "" "SIMULATED" (by decide) (by decide) (by decide)
      (by decide) (by decide) (by decide) (by decide) (by decide) (by decide)
      (by decide) (by decide) (by decide), rfl⟩

/-- C6: when the bluetooth bridge tier yields no snapshot, the selector
returns the fixed WIFI snapshot (voltage 13.6, rpm 800, temperature 92) when
the network probe succeeds, and the fixed SIMULATED snapshot (voltage 12.1,
rpm 780, temperature 94) when the probe fails. -/
theorem fallback_chain_order (env : ObdEnv)
    (hb : get_real_obd_data env = none) :
    (wifi_available env.probe = true →
      get_obd_data env = { source := "WIFI", rpm := some 800
                         , voltage := some (mkRat 136 10), temperature := some 92 }) ∧
    (wifi_available env.probe = false →
      get_obd_data env = { source := "SIMULATED", rpm := some 780
                         , voltage := some (mkRat 121 10), temperature := some 94 }) := by
  constructor <;> intro hw <;> simp [get_obd_data, hb, hw]

theorem fallback_chain_order_witness :
    get_obd_data ⟨false, Except.error PyErr.err, Except.ok ()⟩ =
      { source := "WIFI", rpm := some 800
      , voltage := some (mkRat 136 10), temperature := some 92 } ∧
    get_obd_data ⟨false, Except.error PyErr.err, Except.error PyErr.err⟩ =
      { source := "SIMULATED", rpm := some 780
      , voltage := some (mkRat 121 10), temperature := some 94 } :=
  ⟨(fallback_chain_order ⟨false, Except.error PyErr.err, Except.ok ()⟩ rfl).1 rfl,
   (fallback_chain_order ⟨false, Except.error PyErr.err, Except.error PyErr.err⟩ rfl).2 rfl⟩

/-- C7: whatever the outcome of the externals (library absent, connection
attempt raising, device disconnected, any query raising, network probe
raising), the selector never surfaces an error: it always returns some
snapshot. -/
theorem selector_never_propagates (env : ObdEnv) :
    ∃ d : ObdData, get_obd_dataE env = Except.ok d :=
  ⟨get_obd_data env, get_obd_dataE_eq env⟩

/-- C8: the cascade is deterministic; two evaluations at the same pair agree
in all four fields. -/
theorem diagnose_deterministic (s : String) (t : ObdData)
    (r1 r2 : DiagnosisResult)
    (h1 : r1 = diagnose s t) (h2 : r2 = diagnose s t) :
    r1.diagnosis = r2.diagnosis ∧ r1.confidence = r2.confidence ∧
      r1.reason = r2.reason ∧ r1.next_action = r2.next_action := by
  subst h1; subst h2; exact ⟨rfl, rfl, rfl, rfl⟩

theorem diagnose_deterministic_witness :
    (diagnose "stalling" ⟨"WIFI", some 800, some (mkRat 136 10), some 92⟩).diagnosis =
      (diagnose "stalling" ⟨"WIFI", some 800, some (mkRat 136 10), some 92⟩).diagnosis ∧
    (diagnose "stalling" ⟨"WIFI", some 800, some (mkRat 136 10), some 92⟩).confidence =
      (diagnose "stalling" ⟨"WIFI", some 800, some (mkRat 136 10), some 92⟩).confidence ∧
    (diagnose "stalling" ⟨"WIFI", some 800, some (mkRat 136 10), some 92⟩).reason =
      (diagnose "stalling" ⟨"WIFI", some 800, some (mkRat 136 10), some 92⟩).reason ∧
    (diagnose "stalling" ⟨"WIFI", some 800, some (mkRat 136 10), some 92⟩).next_action =
      (diagnose "stalling" ⟨"WIFI", some 800, some (mkRat 136 10), some 92⟩).next_action :=
  diagnose_deterministic "stalling" ⟨"WIFI", some 800, some (mkRat 136 10), some 92⟩
    _ _ rfl rfl

/-- C9: text matching is substring containment on the whole lower-cased
string: lower-casing the input first changes nothing, and any text whose
lower-cased form contains "starter" as a substring satisfies rule 2, so it
is diagnosed as the starter category whenever rule 1 did not fire. -/
theorem substring_matching_semantics :
    (∀ (s : String) (t : ObdData), diagnose (lowerStr s) t = diagnose s t) ∧
    (∀ (s : String) (t : ObdData),
      containsSub "starter" (lowerStr s) = true →
      condBattery (lowerStr s) t = false →
      diagnose s t = starterResult) := by
  constructor
  · intro s t
    unfold diagnose
    rw [lowerStr_idem]
  · intro s t hs hb
    have hst : condStarter (lowerStr s) = true := by simp [condStarter, hs]
    simp [diagnose, diagnoseLowered, hb, hst]

theorem substring_matching_semantics_witness :
    diagnose (lowerStr "Non-Starter") ⟨"BLUETOOTH", none, none, none⟩ =
      diagnose "Non-Starter" ⟨"BLUETOOTH", none, none, none⟩ ∧
    diagnose "non-starter" ⟨"BLUETOOTH", none, none, none⟩ = starterResult :=
  ⟨substring_matching_semantics.1 "Non-Starter" _,
   substring_matching_semantics.2 "non-starter" _ (by decide) (by decide)⟩

/-- C10: a reading equal to 0 behaves exactly like an absent field: the
guards test Python truthiness before comparing, so voltage 0, rpm 0 and
temperature 0 trigger no sensor rule and the cascade result is the one for
the all-absent snapshot. -/
theorem zero_reading_like_absent (s src : String) :
    diagnose s { source := src, rpm := some 0, voltage := some 0, temperature := some 0 } =
      diagnose s { source := src, rpm := none, voltage := none, temperature := none } := by
  simp [diagnose, diagnoseLowered, condBattery, condOverheating, condStalling,
    guardLt, guardGt, truthy]

/-- C1 counterexample: with the database insert raising, the /analyze route
propagates the exception, so the caller receives an error even though the
diagnosis for the request was computed successfully (it would have been the
battery result). -/
theorem persistence_failure_changes_outcome :
    analyze { symptoms := some "battery dead" }
        { obdEnv := ⟨false, Except.error PyErr.err, Except.error PyErr.err⟩
        , dbOutcome := Except.error PyErr.err } = Except.error PyErr.err ∧
    diagnose "battery dead"
        (get_obd_data ⟨false, Except.error PyErr.err, Except.error PyErr.err⟩) =
      weakBatteryResult :=
  ⟨rfl, by decide⟩

/-- C1 amended: the insert block of the route is not guarded, so the caller
receives the diagnosis response exactly when the insert succeeds; when the
insert raises, the exception propagates to the caller in place of the
response. -/
theorem analyze_db_outcome (req : AnalyzeRequest) (env : AnalyzeEnv) :
    (env.dbOutcome = Except.ok () →
      analyze req env = Except.ok
        { diagnosis := (diagnose (req.symptoms.getD "") (get_obd_data env.obdEnv)).diagnosis
        , confidence := (diagnose (req.symptoms.getD "") (get_obd_data env.obdEnv)).confidence
        , reason := (diagnose (req.symptoms.getD "") (get_obd_data env.obdEnv)).reason
        , next_action := (diagnose (req.symptoms.getD "") (get_obd_data env.obdEnv)).next_action
        , obd := get_obd_data env.obdEnv }) ∧
    (∀ e, env.dbOutcome = Except.error e → analyze req env = Except.error e) := by
  constructor
  · intro hdb
    unfold analyze
    rw [get_obd_dataE_eq, hdb]
    rfl
  · intro e hdb
    unfold analyze
    rw [get_obd_dataE_eq, hdb]
    rfl

theorem analyze_db_outcome_witness :
    analyze { symptoms := some "battery dead" }
        { obdEnv := ⟨false, Except.error PyErr.err, Except.ok ()⟩
        , dbOutcome := Except.ok () } =
      Except.ok { diagnosis := "Weak or Failing Battery", confidence := "92%"
                , reason := "Low voltage detected or battery-related symptoms"
                , next_action := "Check battery terminals or replace battery"
                , obd := ⟨"WIFI", some 800, some (mkRat 136 10), some 92⟩ } ∧
    analyze { symptoms := some "battery dead" }
        { obdEnv := ⟨false, Except.error PyErr.err, Except.ok ()⟩
        , dbOutcome := Except.error PyErr.err } = Except.error PyErr.err :=
  ⟨(analyze_db_outcome { symptoms := some "battery dead" }
      { obdEnv := ⟨false, Except.error PyErr.err, Except.ok ()⟩
      , dbOutcome := Except.ok () }).1 rfl,
   (analyze_db_outcome { symptoms := some "battery dead" }
      { obdEnv := ⟨false, Except.error PyErr.err, Except.ok ()⟩
      , dbOutcome := Except.error PyErr.err }).2 PyErr.err rfl⟩

/-- C2 counterexample: the route ignores request-supplied telemetry. With
symptoms "" and request rpm 400, an environment whose chain falls through to
the SIMULATED snapshot (rpm 780) yields the Normal diagnosis, not the
stalling one. -/
theorem request_rpm_ignored :
    analyze { symptoms := some "", rpm := some 400 }
        { obdEnv := ⟨false, Except.error PyErr.err, Except.error PyErr.err⟩
        , dbOutcome := Except.ok () } =
      Except.ok { diagnosis := "System Normal", confidence := "80%"
                , reason := "No abnormal data detected"
                , next_action := "No action required"
                , obd := ⟨"SIMULATED", some 780, some (mkRat 121 10), some 94⟩ } ∧
    normalResult.diagnosis ≠ stallingResult.diagnosis :=
  ⟨rfl, by decide⟩

/-- C2 amended: request-supplied telemetry never influences the route (two
requests with the same symptom text get the same response), and the stalling
rule fires from the snapshot the selector produced: empty symptom text with
a snapshot whose rpm is present, nonzero and below 500 yields the stalling
category, provided the voltage and temperature guards of earlier rules are
off. -/
theorem low_rpm_snapshot_stalling :
    (∀ (req1 req2 : AnalyzeRequest) (env : AnalyzeEnv),
      req1.symptoms = req2.symptoms → analyze req1 env = analyze req2 env) ∧
    (∀ (obd : ObdData) (r : ℚ),
      obd.rpm = some r → r ≠ 0 → r < 500 →
      guardLt obd.voltage (mkRat 115 10) = false →
      guardGt obd.temperature 105 = false →
      diagnose "" obd = stallingResult) := by
  constructor
  · intro req1 req2 env h
    unfold analyze
    rw [h]
  · intro obd r hr hr0 hr500 hv ht
    have h1 : condBattery (lowerStr "") obd = false := by
      simp [condBattery, hv]
      decide
    have h2 : condStarter (lowerStr "") = false := by decide
    have h3 : condOverheating (lowerStr "") obd = false := by
      simp [condOverheating, ht]
      decide
    have h4 : condStalling (lowerStr "") obd = true := by
      simp [condStalling, hr, guardLt, truthy, hr0, hr500]
    simp [diagnose, diagnoseLowered, h1, h2, h3, h4]

theorem low_rpm_snapshot_stalling_witness :
    analyze { symptoms := some "check" }
        { obdEnv := ⟨false, Except.error PyErr.err, Except.ok ()⟩
        , dbOutcome := Except.ok () } =
      analyze { symptoms := some "check", rpm := some 400 }
        { obdEnv := ⟨false, Except.error PyErr.err, Except.ok ()⟩
        , dbOutcome := Except.ok () } ∧
    diagnose "" ⟨"BLUETOOTH", some 400, none, none⟩ = stallingResult :=
  ⟨low_rpm_snapshot_stalling.1 { symptoms := some "check" }
      { symptoms := some "check", rpm := some 400 }
      { obdEnv := ⟨false, Except.error PyErr.err, Except.ok ()⟩
      , dbOutcome := Except.ok () } rfl,
   low_rpm_snapshot_stalling.2 ⟨"BLUETOOTH", some 400, none, none⟩ 400 rfl
      (by decide) (by decide) rfl rfl⟩

end Ebudhou
